import Mathlib

/-!
Shallow embedding of the gameboy emulator core (Rust sources under src/):
the CPU flag/register file (src/cpu/registers.rs), the timer unit
(src/timer/mod.rs), the cartridge and its MBC1 bank controller
(src/cartridge/mod.rs), the memory bus (src/memory/mod.rs), a faithful
projection of the opcode dispatch (src/cpu/instructions.rs), the instruction
helpers the claims touch (src/cpu/mod.rs), and the stepper
(src/gameboy/mod.rs).

Machine integers are embedded as `Nat` with explicit `% 2^8` / `% 2^16`
wherever the Rust code wraps (`wrapping_add`, `wrapping_sub`, `as u8`).
Rust panics (`panic!`, `todo!`, out-of-bounds indexing) are embedded as
`Option`/`Except` failure: a function that can panic returns `none` on the
panicking inputs.
-/

set_option maxRecDepth 8000

namespace GB

/-- Wrapping 8-bit addition, embedding `u8::wrapping_add`. -/
def wadd8 (a b : Nat) : Nat := (a + b) % 256

/-- Wrapping 8-bit subtraction, embedding `u8::wrapping_sub`
(two's-complement: add the complement of the subtrahend). -/
def wsub8 (a b : Nat) : Nat := (a + (256 - b % 256)) % 256

/-- Wrapping 16-bit addition, embedding `u16::wrapping_add`. -/
def wadd16 (a b : Nat) : Nat := (a + b) % 65536

/-- Wrapping 16-bit subtraction, embedding `u16::wrapping_sub`. -/
def wsub16 (a b : Nat) : Nat := (a + (65536 - b % 65536)) % 65536

/-- CPU flags register, from `Flags` in src/cpu/registers.rs. -/
structure Flags where
  z : Bool
  n : Bool
  h : Bool
  c : Bool
deriving Repr, DecidableEq

/-- `Flags::new`: all flags cleared. -/
def Flags.new : Flags := { z := false, n := false, h := false, c := false }

/-- `Flags::to_u8`: materialize the flag byte (lower 4 bits always 0). -/
def Flags.to_u8 (f : Flags) : Nat :=
  (if f.z then 0x80 else 0) |||
    (if f.n then 0x40 else 0) |||
    (if f.h then 0x20 else 0) |||
    (if f.c then 0x10 else 0)

/-- `Flags::set_from_u8`: load the four flag bits from a byte. -/
def Flags.set_from_u8 (value : Nat) : Flags :=
  { z := value &&& 0x80 != 0
    n := value &&& 0x40 != 0
    h := value &&& 0x20 != 0
    c := value &&& 0x10 != 0 }

/-- CPU register file, from `Registers` in src/cpu/registers.rs. -/
structure Registers where
  a : Nat
  f : Flags
  b : Nat
  c : Nat
  d : Nat
  e : Nat
  h : Nat
  l : Nat
deriving Repr, DecidableEq

/-- `Registers::new`: DMG post-boot register values. -/
def Registers.new : Registers :=
  { a := 0x01, f := Flags.new, b := 0x00, c := 0x13,
    d := 0x00, e := 0xD8, h := 0x01, l := 0x4D }

/-- `Registers::af`. -/
def Registers.af (r : Registers) : Nat := (r.a <<< 8) ||| r.f.to_u8

/-- `Registers::bc`. -/
def Registers.bc (r : Registers) : Nat := (r.b <<< 8) ||| r.c

/-- `Registers::de`. -/
def Registers.de (r : Registers) : Nat := (r.d <<< 8) ||| r.e

/-- `Registers::hl`. -/
def Registers.hl (r : Registers) : Nat := (r.h <<< 8) ||| r.l

/-- `Registers::set_af` (the `as u8` casts are `% 256` / `&&& 0xFF`). -/
def Registers.set_af (r : Registers) (value : Nat) : Registers :=
  { r with a := (value >>> 8) % 256, f := Flags.set_from_u8 (value &&& 0xFF) }

/-- `Registers::set_bc`. -/
def Registers.set_bc (r : Registers) (value : Nat) : Registers :=
  { r with b := (value >>> 8) % 256, c := (value &&& 0xFF) % 256 }

/-- `Registers::set_de`. -/
def Registers.set_de (r : Registers) (value : Nat) : Registers :=
  { r with d := (value >>> 8) % 256, e := (value &&& 0xFF) % 256 }

/-- `Registers::set_hl`. -/
def Registers.set_hl (r : Registers) (value : Nat) : Registers :=
  { r with h := (value >>> 8) % 256, l := (value &&& 0xFF) % 256 }

/-- Timer state, from `Timer` in src/timer/mod.rs. -/
structure Timer where
  div_counter : Nat
  tima : Nat
  tma : Nat
  tac : Nat
  tima_counter : Nat
deriving Repr, DecidableEq

/-- `Timer::new`. -/
def Timer.new : Timer :=
  { div_counter := 0, tima := 0, tma := 0, tac := 0, tima_counter := 0 }

/-- `Timer::tick` exactly as written in the source (src/timer/mod.rs lines
20-24): it advances only `div_counter` (wrapping 16-bit) and returns `true`
unconditionally; it never touches `tima`, `tma` or `tima_counter`. -/
def Timer.tick (t : Timer) (cycles : Nat) : Timer × Bool :=
  ({ t with div_counter := wadd16 t.div_counter cycles }, true)

/-- `Timer::read_register`; the `todo!()` arm (every address other than
0xFF04 and 0xFF07, so in particular 0xFF05/TIMA and 0xFF06/TMA) panics,
embedded as `none`. -/
def Timer.read_register (t : Timer) (address : Nat) : Option Nat :=
  if address = 0xFF04 then some (t.div_counter >>> 8)
  else if address = 0xFF07 then some t.tac
  else none

/-- `Timer::write_register`; the `todo!()` arm (0xFF05, 0xFF06) panics,
embedded as `none`. -/
def Timer.write_register (t : Timer) (address : Nat) (value : Nat) :
    Option Timer :=
  if address = 0xFF04 then some { t with div_counter := 0 }
  else if address = 0xFF07 then some { t with tac := value }
  else none

/-- `Timer::is_timer_enabled`. -/
def Timer.is_timer_enabled (t : Timer) : Bool := t.tac &&& 4 != 0

/-- `Timer::get_tima_frequency` (total: `tac & 3` is always in 0..3). -/
def Timer.get_tima_frequency (t : Timer) : Nat :=
  match t.tac &&& 3 with
  | 0 => 1024
  | 1 => 16
  | 2 => 64
  | _ => 256

/-- Cartridge type from header byte 0x0147, src/cartridge/mod.rs. -/
inductive CartridgeType where
  | RomOnly
  | Mbc1
  | Mbc1Ram
  | Mbc1RamBattery
  | Unknown (value : Nat)
deriving Repr, DecidableEq

/-- `impl From<u8> for CartridgeType`. -/
def CartridgeType.fromByte (value : Nat) : CartridgeType :=
  match value with
  | 0x00 => CartridgeType.RomOnly
  | 0x01 => CartridgeType.Mbc1
  | 0x02 => CartridgeType.Mbc1Ram
  | 0x03 => CartridgeType.Mbc1RamBattery
  | v => CartridgeType.Unknown v

/-- Cartridge header, from `CartridgeHeader` in src/cartridge/mod.rs.
The title is kept as its raw byte slice (the source's lossy UTF-8 decode
of those same bytes plays no role in any claim). -/
structure CartridgeHeader where
  title : List Nat
  cartridge_type : CartridgeType
  rom_size : Nat
  ram_size : Nat
deriving Repr, DecidableEq

/-- The ROM-bank-count table inside `CartridgeHeader::from_rom`
(header byte 0x0148); `none` is the `Err(Invalid ROM size)` arm. -/
def romBanksOfCode (code : Nat) : Option Nat :=
  match code with
  | 0x00 => some 2
  | 0x01 => some 4
  | 0x02 => some 8
  | 0x03 => some 16
  | 0x04 => some 32
  | 0x05 => some 64
  | 0x06 => some 128
  | 0x07 => some 256
  | 0x08 => some 512
  | _ => none

/-- The RAM-size table inside `CartridgeHeader::from_rom`
(header byte 0x0149); `none` is the `Err(Invalid RAM size)` arm. -/
def ramSizeOfCode (code : Nat) : Option Nat :=
  match code with
  | 0x00 => some 0
  | 0x01 => some 2048
  | 0x02 => some 8192
  | 0x03 => some 32768
  | 0x04 => some 131072
  | 0x05 => some 65536
  | _ => none

/-- `CartridgeHeader::from_rom`: the only length validation is
`rom.len() < 0x0150`; indexing at 0x0134..0x0149 is then in bounds
(`getD _ 0` equals the panicking index under that guard). -/
def CartridgeHeader.from_rom (rom : List Nat) : Except String CartridgeHeader :=
  if rom.length < 0x0150 then
    Except.error "ROM too small to contain valid header"
  else
    match romBanksOfCode (rom.getD 0x0148 0) with
    | none => Except.error "Invalid ROM size"
    | some rom_banks =>
      match ramSizeOfCode (rom.getD 0x0149 0) with
      | none => Except.error "Invalid RAM size"
      | some ram_size =>
        Except.ok
          { title := (rom.drop 0x0134).take 16
            cartridge_type := CartridgeType.fromByte (rom.getD 0x0147 0)
            rom_size := rom_banks * 16384
            ram_size := ram_size }

/-- Cartridge state, from `Cartridge` in src/cartridge/mod.rs. -/
structure Cartridge where
  rom : List Nat
  ram : List Nat
  header : CartridgeHeader
  rom_bank : Nat
  ram_bank : Nat
  ram_enabled : Bool
  banking_mode : Nat
deriving Repr, DecidableEq

/-- `Cartridge::load` after the file read has produced the ROM bytes:
parse the header and build the initial state (`rom_bank = 1`,
`ram_bank = 0`, RAM disabled, banking mode 0, RAM zero-filled). -/
def Cartridge.load_from (rom : List Nat) : Except String Cartridge :=
  match CartridgeHeader.from_rom rom with
  | Except.error e => Except.error e
  | Except.ok header =>
    Except.ok
      { rom := rom
        ram := List.replicate header.ram_size 0
        header := header
        rom_bank := 1
        ram_bank := 0
        ram_enabled := false
        banking_mode := 0 }

/-- `Cartridge::read_byte`. The 0x0000-0x3FFF arm indexes `rom` without a
bounds check (`self.rom[addr]`), embedded as `List.get?` (`none` = panic);
every other arm is guarded and total. -/
def Cartridge.read_byte (c : Cartridge) (addr : Nat) : Option Nat :=
  if addr ≤ 0x3FFF then
    c.rom.get? addr
  else if addr ≤ 0x7FFF then
    let offset := c.rom_bank * 0x4000 + (addr - 0x4000)
    some (if offset < c.rom.length then c.rom.getD offset 0 else 0xFF)
  else if 0xA000 ≤ addr ∧ addr ≤ 0xBFFF then
    some
      (if c.ram_enabled && !c.ram.isEmpty then
        let offset := c.ram_bank * 0x2000 + (addr - 0xA000)
        if offset < c.ram.length then c.ram.getD offset 0 else 0xFF
      else 0xFF)
  else some 0xFF

/-- `Cartridge::write_mbc1`: the MBC1 latch state machine. Note the
0x2000-0x3FFF arm overwrites `rom_bank` with `value & 0x1F` outright
(zero forced to 1); it does not merge with the previously latched upper
bits. -/
def Cartridge.write_mbc1 (c : Cartridge) (addr : Nat) (value : Nat) :
    Cartridge :=
  if addr ≤ 0x1FFF then
    { c with ram_enabled := (value &&& 0x0F) == 0x0A }
  else if addr ≤ 0x3FFF then
    let bank := value &&& 0x1F
    { c with rom_bank := if bank = 0 then 1 else bank }
  else if addr ≤ 0x5FFF then
    let bank := value &&& 0x03
    if c.banking_mode = 0 then
      { c with rom_bank := (c.rom_bank &&& 0x1F) ||| (bank <<< 5) }
    else
      { c with ram_bank := bank }
  else if addr ≤ 0x7FFF then
    { c with banking_mode := value &&& 0x01 }
  else if 0xA000 ≤ addr ∧ addr ≤ 0xBFFF then
    if c.ram_enabled && !c.ram.isEmpty then
      let offset := c.ram_bank * 0x2000 + (addr - 0xA000)
      if offset < c.ram.length then { c with ram := c.ram.set offset value }
      else c
    else c
  else c

/-- `Cartridge::write_byte`: dispatch on the cartridge type. -/
def Cartridge.write_byte (c : Cartridge) (addr : Nat) (value : Nat) :
    Cartridge :=
  match c.header.cartridge_type with
  | CartridgeType.RomOnly => c
  | CartridgeType.Mbc1 => c.write_mbc1 addr value
  | CartridgeType.Mbc1Ram => c.write_mbc1 addr value
  | CartridgeType.Mbc1RamBattery => c.write_mbc1 addr value
  | CartridgeType.Unknown _ => c

/-- Memory bus state, from `Memory` in src/memory/mod.rs. The 64 KiB
backing vector is embedded as a function from addresses to bytes. -/
structure Memory where
  data : Nat → Nat
  cartridge : Option Cartridge
  timer : Timer

/-- `Memory::new`: zero-filled backing array, no cartridge, fresh timer. -/
def Memory.new : Memory :=
  { data := fun _ => 0, cartridge := none, timer := Timer.new }

/-- `Memory::read_byte`. The match arms in source order: the timer arm
(0xFF04-0xFF07) precedes the 0xC000-0xFFFF catch-all, so it wins on those
four addresses. `none` propagates a panic from the cartridge or the timer. -/
def Memory.read_byte (m : Memory) (address : Nat) : Option Nat :=
  if address ≤ 0x3FFF then
    match m.cartridge with
    | some cart => cart.read_byte address
    | none => some (m.data address)
  else if address ≤ 0x7FFF then
    match m.cartridge with
    | some cart => cart.read_byte address
    | none => some (m.data address)
  else if address ≤ 0x9FFF then
    some (m.data address)
  else if address ≤ 0xBFFF then
    match m.cartridge with
    | some cart => cart.read_byte address
    | none => some (m.data address)
  else if 0xFF04 ≤ address ∧ address ≤ 0xFF07 then
    m.timer.read_register address
  else
    some (m.data address)

/-- `Memory::write_byte`. `none` propagates the timer's `todo!()` panic. -/
def Memory.write_byte (m : Memory) (address : Nat) (value : Nat) :
    Option Memory :=
  if address ≤ 0x7FFF then
    match m.cartridge with
    | some cart =>
      some { m with cartridge := some (cart.write_byte address value) }
    | none =>
      some { m with data := fun x => if x = address then value else m.data x }
  else if address ≤ 0x9FFF then
    some { m with data := fun x => if x = address then value else m.data x }
  else if address ≤ 0xBFFF then
    match m.cartridge with
    | some cart =>
      some { m with cartridge := some (cart.write_byte address value) }
    | none =>
      some { m with data := fun x => if x = address then value else m.data x }
  else if 0xFF04 ≤ address ∧ address ≤ 0xFF07 then
    match m.timer.write_register address value with
    | some t => some { m with timer := t }
    | none => none
  else
    some { m with data := fun x => if x = address then value else m.data x }

/-- `Memory::read_word`: little-endian 16-bit read, high byte at the
wrapping successor address. -/
def Memory.read_word (m : Memory) (address : Nat) : Option Nat :=
  match m.read_byte address with
  | none => none
  | some low =>
    match m.read_byte (wadd16 address 1) with
    | none => none
    | some high => some ((high <<< 8) ||| low)

/-- CPU state, from `Cpu` in src/cpu/mod.rs. -/
structure Cpu where
  registers : Registers
  pc : Nat
  sp : Nat
  halted : Bool
  interrupts_enabled : Bool
deriving Repr, DecidableEq

/-- `Cpu::new`. -/
def Cpu.new : Cpu :=
  { registers := Registers.new, pc := 0x0100, sp := 0xFFFE,
    halted := false, interrupts_enabled := false }

/-- `Cpu::fetch_byte`: read the byte at PC and advance PC (wrapping). -/
def Cpu.fetch_byte (cpu : Cpu) (memory : Memory) : Option (Cpu × Nat) :=
  match memory.read_byte cpu.pc with
  | none => none
  | some byte => some ({ cpu with pc := wadd16 cpu.pc 1 }, byte)

/-- `Cpu::fetch_word`: read the word at PC and advance PC by 2. -/
def Cpu.fetch_word (cpu : Cpu) (memory : Memory) : Option (Cpu × Nat) :=
  match memory.read_word cpu.pc with
  | none => none
  | some word => some ({ cpu with pc := wadd16 cpu.pc 2 }, word)

/-- `Cpu::nop`. -/
def Cpu.nop (cpu : Cpu) : Cpu × Nat := (cpu, 4)

/-- `Cpu::halt`. -/
def Cpu.halt (cpu : Cpu) : Cpu × Nat := ({ cpu with halted := true }, 4)

/-- `Cpu::di`. -/
def Cpu.di (cpu : Cpu) : Cpu × Nat :=
  ({ cpu with interrupts_enabled := false }, 4)

/-- `Cpu::ei`. -/
def Cpu.ei (cpu : Cpu) : Cpu × Nat :=
  ({ cpu with interrupts_enabled := true }, 4)

/-- `Cpu::ld_a_a` (and the 20 helpers after it): 8-bit register moves. -/
def Cpu.ld_a_a (cpu : Cpu) : Cpu × Nat := (cpu, 4)

def Cpu.ld_a_b (cpu : Cpu) : Cpu × Nat :=
  ({ cpu with registers := { cpu.registers with a := cpu.registers.b } }, 4)

def Cpu.ld_a_c (cpu : Cpu) : Cpu × Nat :=
  ({ cpu with registers := { cpu.registers with a := cpu.registers.c } }, 4)

def Cpu.ld_a_d (cpu : Cpu) : Cpu × Nat :=
  ({ cpu with registers := { cpu.registers with a := cpu.registers.d } }, 4)

def Cpu.ld_a_e (cpu : Cpu) : Cpu × Nat :=
  ({ cpu with registers := { cpu.registers with a := cpu.registers.e } }, 4)

def Cpu.ld_a_h (cpu : Cpu) : Cpu × Nat :=
  ({ cpu with registers := { cpu.registers with a := cpu.registers.h } }, 4)

def Cpu.ld_a_l (cpu : Cpu) : Cpu × Nat :=
  ({ cpu with registers := { cpu.registers with a := cpu.registers.l } }, 4)

def Cpu.ld_b_a (cpu : Cpu) : Cpu × Nat :=
  ({ cpu with registers := { cpu.registers with b := cpu.registers.a } }, 4)

def Cpu.ld_b_b (cpu : Cpu) : Cpu × Nat := (cpu, 4)

def Cpu.ld_b_c (cpu : Cpu) : Cpu × Nat :=
  ({ cpu with registers := { cpu.registers with b := cpu.registers.c } }, 4)

def Cpu.ld_b_d (cpu : Cpu) : Cpu × Nat :=
  ({ cpu with registers := { cpu.registers with b := cpu.registers.d } }, 4)

def Cpu.ld_b_e (cpu : Cpu) : Cpu × Nat :=
  ({ cpu with registers := { cpu.registers with b := cpu.registers.e } }, 4)

def Cpu.ld_b_h (cpu : Cpu) : Cpu × Nat :=
  ({ cpu with registers := { cpu.registers with b := cpu.registers.h } }, 4)

def Cpu.ld_b_l (cpu : Cpu) : Cpu × Nat :=
  ({ cpu with registers := { cpu.registers with b := cpu.registers.l } }, 4)

def Cpu.ld_c_a (cpu : Cpu) : Cpu × Nat :=
  ({ cpu with registers := { cpu.registers with c := cpu.registers.a } }, 4)

def Cpu.ld_c_b (cpu : Cpu) : Cpu × Nat :=
  ({ cpu with registers := { cpu.registers with c := cpu.registers.b } }, 4)

def Cpu.ld_c_c (cpu : Cpu) : Cpu × Nat := (cpu, 4)

def Cpu.ld_c_d (cpu : Cpu) : Cpu × Nat :=
  ({ cpu with registers := { cpu.registers with c := cpu.registers.d } }, 4)

def Cpu.ld_c_e (cpu : Cpu) : Cpu × Nat :=
  ({ cpu with registers := { cpu.registers with c := cpu.registers.e } }, 4)

def Cpu.ld_c_h (cpu : Cpu) : Cpu × Nat :=
  ({ cpu with registers := { cpu.registers with c := cpu.registers.h } }, 4)

def Cpu.ld_c_l (cpu : Cpu) : Cpu × Nat :=
  ({ cpu with registers := { cpu.registers with c := cpu.registers.l } }, 4)

/-- `Cpu::add_a`: ADD A, value. Flags Z/N/H/C exactly as in the source. -/
def Cpu.add_a (cpu : Cpu) (value : Nat) : Cpu × Nat :=
  let a := cpu.registers.a
  let result := wadd8 a value
  let f : Flags :=
    { z := result == 0
      n := false
      h := decide ((a &&& 0x0F) + (value &&& 0x0F) > 0x0F)
      c := decide (a + value > 0xFF) }
  ({ cpu with registers := { cpu.registers with a := result, f := f } }, 4)

/-- `Cpu::sub_a`. -/
def Cpu.sub_a (cpu : Cpu) (value : Nat) : Cpu × Nat :=
  let a := cpu.registers.a
  let result := wsub8 a value
  let f : Flags :=
    { z := result == 0
      n := true
      h := decide ((a &&& 0x0F) < (value &&& 0x0F))
      c := decide (a < value) }
  ({ cpu with registers := { cpu.registers with a := result, f := f } }, 4)

/-- `Cpu::and_a`. -/
def Cpu.and_a (cpu : Cpu) (value : Nat) : Cpu × Nat :=
  let a := cpu.registers.a &&& value
  let f : Flags := { z := a == 0, n := false, h := true, c := false }
  ({ cpu with registers := { cpu.registers with a := a, f := f } }, 4)

/-- `Cpu::or_a`. -/
def Cpu.or_a (cpu : Cpu) (value : Nat) : Cpu × Nat :=
  let a := cpu.registers.a ||| value
  let f : Flags := { z := a == 0, n := false, h := false, c := false }
  ({ cpu with registers := { cpu.registers with a := a, f := f } }, 4)

/-- `Cpu::cp_a`: compare (SUB without storing the result). -/
def Cpu.cp_a (cpu : Cpu) (value : Nat) : Cpu × Nat :=
  let a := cpu.registers.a
  let result := wsub8 a value
  let f : Flags :=
    { z := result == 0
      n := true
      h := decide ((a &&& 0x0F) < (value &&& 0x0F))
      c := decide (a < value) }
  ({ cpu with registers := { cpu.registers with f := f } }, 4)

/-- `Cpu::adc_a`: add with carry. -/
def Cpu.adc_a (cpu : Cpu) (value : Nat) : Cpu × Nat :=
  let a := cpu.registers.a
  let carry := if cpu.registers.f.c then 1 else 0
  let result := wadd8 (wadd8 a value) carry
  let f : Flags :=
    { z := result == 0
      n := false
      h := decide ((a &&& 0x0F) + (value &&& 0x0F) + carry > 0x0F)
      c := decide (a + value + carry > 0xFF) }
  ({ cpu with registers := { cpu.registers with a := result, f := f } }, 4)

/-- `Cpu::sbc_a`: subtract with carry (borrow). -/
def Cpu.sbc_a (cpu : Cpu) (value : Nat) : Cpu × Nat :=
  let a := cpu.registers.a
  let carry := if cpu.registers.f.c then 1 else 0
  let result := wsub8 (wsub8 a value) carry
  let f : Flags :=
    { z := result == 0
      n := true
      h := decide ((a &&& 0x0F) < (value &&& 0x0F) + carry)
      c := decide (a < value + carry) }
  ({ cpu with registers := { cpu.registers with a := result, f := f } }, 4)

/-- `Cpu::xor_a` (opcode 0xAF): A xor A is hard-coded to zero. -/
def Cpu.xor_a (cpu : Cpu) : Cpu × Nat :=
  let f : Flags := { z := true, n := false, h := false, c := false }
  ({ cpu with registers := { cpu.registers with a := 0, f := f } }, 4)

/-- `Cpu::xor_b`. -/
def Cpu.xor_b (cpu : Cpu) : Cpu × Nat :=
  let a := cpu.registers.a ^^^ cpu.registers.b
  let f : Flags := { z := a == 0, n := false, h := false, c := false }
  ({ cpu with registers := { cpu.registers with a := a, f := f } }, 4)

/-- `Cpu::xor_c`. -/
def Cpu.xor_c (cpu : Cpu) : Cpu × Nat :=
  let a := cpu.registers.a ^^^ cpu.registers.c
  let f : Flags := { z := a == 0, n := false, h := false, c := false }
  ({ cpu with registers := { cpu.registers with a := a, f := f } }, 4)

/-- `Cpu::xor_d`. -/
def Cpu.xor_d (cpu : Cpu) : Cpu × Nat :=
  let a := cpu.registers.a ^^^ cpu.registers.d
  let f : Flags := { z := a == 0, n := false, h := false, c := false }
  ({ cpu with registers := { cpu.registers with a := a, f := f } }, 4)

/-- `Cpu::xor_e`. -/
def Cpu.xor_e (cpu : Cpu) : Cpu × Nat :=
  let a := cpu.registers.a ^^^ cpu.registers.e
  let f : Flags := { z := a == 0, n := false, h := false, c := false }
  ({ cpu with registers := { cpu.registers with a := a, f := f } }, 4)

/-- `Cpu::xor_h`. -/
def Cpu.xor_h (cpu : Cpu) : Cpu × Nat :=
  let a := cpu.registers.a ^^^ cpu.registers.h
  let f : Flags := { z := a == 0, n := false, h := false, c := false }
  ({ cpu with registers := { cpu.registers with a := a, f := f } }, 4)

/-- `Cpu::xor_l`. -/
def Cpu.xor_l (cpu : Cpu) : Cpu × Nat :=
  let a := cpu.registers.a ^^^ cpu.registers.l
  let f : Flags := { z := a == 0, n := false, h := false, c := false }
  ({ cpu with registers := { cpu.registers with a := a, f := f } }, 4)

def Cpu.add_a_a (cpu : Cpu) : Cpu × Nat := cpu.add_a cpu.registers.a

def Cpu.add_a_b (cpu : Cpu) : Cpu × Nat := cpu.add_a cpu.registers.b

def Cpu.add_a_c (cpu : Cpu) : Cpu × Nat := cpu.add_a cpu.registers.c

def Cpu.add_a_d (cpu : Cpu) : Cpu × Nat := cpu.add_a cpu.registers.d

def Cpu.add_a_e (cpu : Cpu) : Cpu × Nat := cpu.add_a cpu.registers.e

def Cpu.add_a_h (cpu : Cpu) : Cpu × Nat := cpu.add_a cpu.registers.h

def Cpu.add_a_l (cpu : Cpu) : Cpu × Nat := cpu.add_a cpu.registers.l

def Cpu.sub_a_a (cpu : Cpu) : Cpu × Nat := cpu.sub_a cpu.registers.a

def Cpu.sub_a_b (cpu : Cpu) : Cpu × Nat := cpu.sub_a cpu.registers.b

def Cpu.sub_a_c (cpu : Cpu) : Cpu × Nat := cpu.sub_a cpu.registers.c

def Cpu.sub_a_d (cpu : Cpu) : Cpu × Nat := cpu.sub_a cpu.registers.d

def Cpu.sub_a_e (cpu : Cpu) : Cpu × Nat := cpu.sub_a cpu.registers.e

def Cpu.sub_a_h (cpu : Cpu) : Cpu × Nat := cpu.sub_a cpu.registers.h

def Cpu.sub_a_l (cpu : Cpu) : Cpu × Nat := cpu.sub_a cpu.registers.l

def Cpu.and_a_a (cpu : Cpu) : Cpu × Nat := cpu.and_a cpu.registers.a

def Cpu.and_a_b (cpu : Cpu) : Cpu × Nat := cpu.and_a cpu.registers.b

def Cpu.and_a_c (cpu : Cpu) : Cpu × Nat := cpu.and_a cpu.registers.c

def Cpu.and_a_d (cpu : Cpu) : Cpu × Nat := cpu.and_a cpu.registers.d

def Cpu.and_a_e (cpu : Cpu) : Cpu × Nat := cpu.and_a cpu.registers.e

def Cpu.and_a_h (cpu : Cpu) : Cpu × Nat := cpu.and_a cpu.registers.h

def Cpu.and_a_l (cpu : Cpu) : Cpu × Nat := cpu.and_a cpu.registers.l

def Cpu.or_a_a (cpu : Cpu) : Cpu × Nat := cpu.or_a cpu.registers.a

def Cpu.or_a_b (cpu : Cpu) : Cpu × Nat := cpu.or_a cpu.registers.b

def Cpu.or_a_c (cpu : Cpu) : Cpu × Nat := cpu.or_a cpu.registers.c

def Cpu.or_a_d (cpu : Cpu) : Cpu × Nat := cpu.or_a cpu.registers.d

def Cpu.or_a_e (cpu : Cpu) : Cpu × Nat := cpu.or_a cpu.registers.e

def Cpu.or_a_h (cpu : Cpu) : Cpu × Nat := cpu.or_a cpu.registers.h

def Cpu.or_a_l (cpu : Cpu) : Cpu × Nat := cpu.or_a cpu.registers.l

def Cpu.cp_a_a (cpu : Cpu) : Cpu × Nat := cpu.cp_a cpu.registers.a

def Cpu.cp_a_b (cpu : Cpu) : Cpu × Nat := cpu.cp_a cpu.registers.b

def Cpu.cp_a_c (cpu : Cpu) : Cpu × Nat := cpu.cp_a cpu.registers.c

def Cpu.cp_a_d (cpu : Cpu) : Cpu × Nat := cpu.cp_a cpu.registers.d

def Cpu.cp_a_e (cpu : Cpu) : Cpu × Nat := cpu.cp_a cpu.registers.e

def Cpu.cp_a_h (cpu : Cpu) : Cpu × Nat := cpu.cp_a cpu.registers.h

def Cpu.cp_a_l (cpu : Cpu) : Cpu × Nat := cpu.cp_a cpu.registers.l

def Cpu.adc_a_a (cpu : Cpu) : Cpu × Nat := cpu.adc_a cpu.registers.a

def Cpu.adc_a_b (cpu : Cpu) : Cpu × Nat := cpu.adc_a cpu.registers.b

def Cpu.adc_a_c (cpu : Cpu) : Cpu × Nat := cpu.adc_a cpu.registers.c

def Cpu.adc_a_d (cpu : Cpu) : Cpu × Nat := cpu.adc_a cpu.registers.d

def Cpu.adc_a_e (cpu : Cpu) : Cpu × Nat := cpu.adc_a cpu.registers.e

def Cpu.adc_a_h (cpu : Cpu) : Cpu × Nat := cpu.adc_a cpu.registers.h

def Cpu.adc_a_l (cpu : Cpu) : Cpu × Nat := cpu.adc_a cpu.registers.l

def Cpu.sbc_a_a (cpu : Cpu) : Cpu × Nat := cpu.sbc_a cpu.registers.a

def Cpu.sbc_a_b (cpu : Cpu) : Cpu × Nat := cpu.sbc_a cpu.registers.b

def Cpu.sbc_a_c (cpu : Cpu) : Cpu × Nat := cpu.sbc_a cpu.registers.c

def Cpu.sbc_a_d (cpu : Cpu) : Cpu × Nat := cpu.sbc_a cpu.registers.d

def Cpu.sbc_a_e (cpu : Cpu) : Cpu × Nat := cpu.sbc_a cpu.registers.e

def Cpu.sbc_a_h (cpu : Cpu) : Cpu × Nat := cpu.sbc_a cpu.registers.h

def Cpu.sbc_a_l (cpu : Cpu) : Cpu × Nat := cpu.sbc_a cpu.registers.l

/-- `Cpu::jp_nn`. -/
def Cpu.jp_nn (cpu : Cpu) (memory : Memory) : Option (Cpu × Nat) :=
  match cpu.fetch_word memory with
  | none => none
  | some (cpu, addr) => some ({ cpu with pc := addr }, 16)

/-- `Cpu::push_bc`: decrement SP, write the high byte, decrement again,
write the low byte; 16 cycles. -/
def Cpu.push_bc (cpu : Cpu) (memory : Memory) : Option (Cpu × Memory × Nat) :=
  let value := cpu.registers.bc
  let sp1 := wsub16 cpu.sp 1
  match memory.write_byte sp1 (value >>> 8) with
  | none => none
  | some memory =>
    let sp2 := wsub16 sp1 1
    match memory.write_byte sp2 (value &&& 0xFF) with
    | none => none
    | some memory => some ({ cpu with sp := sp2 }, memory, 16)

/-- `Cpu::push_de`. -/
def Cpu.push_de (cpu : Cpu) (memory : Memory) : Option (Cpu × Memory × Nat) :=
  let value := cpu.registers.de
  let sp1 := wsub16 cpu.sp 1
  match memory.write_byte sp1 (value >>> 8) with
  | none => none
  | some memory =>
    let sp2 := wsub16 sp1 1
    match memory.write_byte sp2 (value &&& 0xFF) with
    | none => none
    | some memory => some ({ cpu with sp := sp2 }, memory, 16)

/-- `Cpu::push_hl`. -/
def Cpu.push_hl (cpu : Cpu) (memory : Memory) : Option (Cpu × Memory × Nat) :=
  let value := cpu.registers.hl
  let sp1 := wsub16 cpu.sp 1
  match memory.write_byte sp1 (value >>> 8) with
  | none => none
  | some memory =>
    let sp2 := wsub16 sp1 1
    match memory.write_byte sp2 (value &&& 0xFF) with
    | none => none
    | some memory => some ({ cpu with sp := sp2 }, memory, 16)

/-- `Cpu::push_af`. -/
def Cpu.push_af (cpu : Cpu) (memory : Memory) : Option (Cpu × Memory × Nat) :=
  let value := cpu.registers.af
  let sp1 := wsub16 cpu.sp 1
  match memory.write_byte sp1 (value >>> 8) with
  | none => none
  | some memory =>
    let sp2 := wsub16 sp1 1
    match memory.write_byte sp2 (value &&& 0xFF) with
    | none => none
    | some memory => some ({ cpu with sp := sp2 }, memory, 16)

/-- `Cpu::pop_bc`: read the low byte at SP, then the high byte,
incrementing SP past both; 12 cycles. -/
def Cpu.pop_bc (cpu : Cpu) (memory : Memory) : Option (Cpu × Nat) :=
  match memory.read_byte cpu.sp with
  | none => none
  | some low =>
    let sp1 := wadd16 cpu.sp 1
    match memory.read_byte sp1 with
    | none => none
    | some high =>
      some ({ cpu with sp := wadd16 sp1 1
                       registers := cpu.registers.set_bc ((high <<< 8) ||| low) },
            12)

/-- `Cpu::pop_de`. -/
def Cpu.pop_de (cpu : Cpu) (memory : Memory) : Option (Cpu × Nat) :=
  match memory.read_byte cpu.sp with
  | none => none
  | some low =>
    let sp1 := wadd16 cpu.sp 1
    match memory.read_byte sp1 with
    | none => none
    | some high =>
      some ({ cpu with sp := wadd16 sp1 1
                       registers := cpu.registers.set_de ((high <<< 8) ||| low) },
            12)

/-- `Cpu::pop_hl`. -/
def Cpu.pop_hl (cpu : Cpu) (memory : Memory) : Option (Cpu × Nat) :=
  match memory.read_byte cpu.sp with
  | none => none
  | some low =>
    let sp1 := wadd16 cpu.sp 1
    match memory.read_byte sp1 with
    | none => none
    | some high =>
      some ({ cpu with sp := wadd16 sp1 1
                       registers := cpu.registers.set_hl ((high <<< 8) ||| low) },
            12)

/-- `Cpu::pop_af`. -/
def Cpu.pop_af (cpu : Cpu) (memory : Memory) : Option (Cpu × Nat) :=
  match memory.read_byte cpu.sp with
  | none => none
  | some low =>
    let sp1 := wadd16 cpu.sp 1
    match memory.read_byte sp1 with
    | none => none
    | some high =>
      some ({ cpu with sp := wadd16 sp1 1
                       registers := cpu.registers.set_af ((high <<< 8) ||| low) },
            12)

/-- `Cpu::ret`: pop PC from the stack, 16 cycles. -/
def Cpu.ret (cpu : Cpu) (memory : Memory) : Option (Cpu × Nat) :=
  match memory.read_byte cpu.sp with
  | none => none
  | some low =>
    let sp1 := wadd16 cpu.sp 1
    match memory.read_byte sp1 with
    | none => none
    | some high =>
      some ({ cpu with sp := wadd16 sp1 1, pc := (high <<< 8) ||| low }, 16)

/-- `Cpu::reti` exactly as written (src/cpu/mod.rs lines 1195-1203): it
pops PC like `ret` and returns 16 cycles, but the interrupt re-enable is
an unimplemented TODO, so `interrupts_enabled` is left untouched. -/
def Cpu.reti (cpu : Cpu) (memory : Memory) : Option (Cpu × Nat) :=
  match memory.read_byte cpu.sp with
  | none => none
  | some low =>
    let sp1 := wadd16 cpu.sp 1
    match memory.read_byte sp1 with
    | none => none
    | some high =>
      some ({ cpu with sp := wadd16 sp1 1, pc := (high <<< 8) ||| low }, 16)

/-- Adapter: lift a register-only instruction helper into the shape of
`Cpu::execute_opcode` (the Rust methods mutate `self` in place; here the
unchanged memory is threaded through). -/
def pureOp (r : Cpu × Nat) (memory : Memory) : Option (Cpu × Memory × Nat) :=
  some (r.1, memory, r.2)

/-- Adapter: lift a memory-reading instruction helper (Rust `&Memory`)
into the shape of `Cpu::execute_opcode`. -/
def readOp (r : Option (Cpu × Nat)) (memory : Memory) :
    Option (Cpu × Memory × Nat) :=
  match r with
  | none => none
  | some (cpu, cycles) => some (cpu, memory, cycles)

/-- `Cpu::execute_opcode`, restricted to the arms whose helpers are
embedded above (the subset the theorems in this file touch). The final
catch-all returns `none`; it covers both the source's unimplemented-opcode
`panic!` arm and the source arms not re-modelled here. The full dispatch
coverage of the source match is captured separately and faithfully by
`primaryOpcodeHandled` below. -/
def Cpu.execute_opcode (cpu : Cpu) (opcode : Nat) (memory : Memory) :
    Option (Cpu × Memory × Nat) :=
  match opcode with
  | 0x00 => pureOp cpu.nop memory
  | 0x7F => pureOp cpu.ld_a_a memory
  | 0x78 => pureOp cpu.ld_a_b memory
  | 0x79 => pureOp cpu.ld_a_c memory
  | 0x7A => pureOp cpu.ld_a_d memory
  | 0x7B => pureOp cpu.ld_a_e memory
  | 0x7C => pureOp cpu.ld_a_h memory
  | 0x7D => pureOp cpu.ld_a_l memory
  | 0x47 => pureOp cpu.ld_b_a memory
  | 0x40 => pureOp cpu.ld_b_b memory
  | 0x41 => pureOp cpu.ld_b_c memory
  | 0x42 => pureOp cpu.ld_b_d memory
  | 0x43 => pureOp cpu.ld_b_e memory
  | 0x44 => pureOp cpu.ld_b_h memory
  | 0x45 => pureOp cpu.ld_b_l memory
  | 0x4F => pureOp cpu.ld_c_a memory
  | 0x48 => pureOp cpu.ld_c_b memory
  | 0x49 => pureOp cpu.ld_c_c memory
  | 0x4A => pureOp cpu.ld_c_d memory
  | 0x4B => pureOp cpu.ld_c_e memory
  | 0x4C => pureOp cpu.ld_c_h memory
  | 0x4D => pureOp cpu.ld_c_l memory
  | 0x76 => pureOp cpu.halt memory
  | 0xF3 => pureOp cpu.di memory
  | 0xFB => pureOp cpu.ei memory
  | 0xAF => pureOp cpu.xor_a memory
  | 0xA8 => pureOp cpu.xor_b memory
  | 0xA9 => pureOp cpu.xor_c memory
  | 0xAA => pureOp cpu.xor_d memory
  | 0xAB => pureOp cpu.xor_e memory
  | 0xAC => pureOp cpu.xor_h memory
  | 0xAD => pureOp cpu.xor_l memory
  | 0xC3 => readOp (cpu.jp_nn memory) memory
  | 0x87 => pureOp cpu.add_a_a memory
  | 0x80 => pureOp cpu.add_a_b memory
  | 0x81 => pureOp cpu.add_a_c memory
  | 0x82 => pureOp cpu.add_a_d memory
  | 0x83 => pureOp cpu.add_a_e memory
  | 0x84 => pureOp cpu.add_a_h memory
  | 0x85 => pureOp cpu.add_a_l memory
  | 0x97 => pureOp cpu.sub_a_a memory
  | 0x90 => pureOp cpu.sub_a_b memory
  | 0x91 => pureOp cpu.sub_a_c memory
  | 0x92 => pureOp cpu.sub_a_d memory
  | 0x93 => pureOp cpu.sub_a_e memory
  | 0x94 => pureOp cpu.sub_a_h memory
  | 0x95 => pureOp cpu.sub_a_l memory
  | 0xA7 => pureOp cpu.and_a_a memory
  | 0xA0 => pureOp cpu.and_a_b memory
  | 0xA1 => pureOp cpu.and_a_c memory
  | 0xA2 => pureOp cpu.and_a_d memory
  | 0xA3 => pureOp cpu.and_a_e memory
  | 0xA4 => pureOp cpu.and_a_h memory
  | 0xA5 => pureOp cpu.and_a_l memory
  | 0xB7 => pureOp cpu.or_a_a memory
  | 0xB0 => pureOp cpu.or_a_b memory
  | 0xB1 => pureOp cpu.or_a_c memory
  | 0xB2 => pureOp cpu.or_a_d memory
  | 0xB3 => pureOp cpu.or_a_e memory
  | 0xB4 => pureOp cpu.or_a_h memory
  | 0xB5 => pureOp cpu.or_a_l memory
  | 0xBF => pureOp cpu.cp_a_a memory
  | 0xB8 => pureOp cpu.cp_a_b memory
  | 0xB9 => pureOp cpu.cp_a_c memory
  | 0xBA => pureOp cpu.cp_a_d memory
  | 0xBB => pureOp cpu.cp_a_e memory
  | 0xBC => pureOp cpu.cp_a_h memory
  | 0xBD => pureOp cpu.cp_a_l memory
  | 0x8F => pureOp cpu.adc_a_a memory
  | 0x88 => pureOp cpu.adc_a_b memory
  | 0x89 => pureOp cpu.adc_a_c memory
  | 0x8A => pureOp cpu.adc_a_d memory
  | 0x8B => pureOp cpu.adc_a_e memory
  | 0x8C => pureOp cpu.adc_a_h memory
  | 0x8D => pureOp cpu.adc_a_l memory
  | 0x9F => pureOp cpu.sbc_a_a memory
  | 0x98 => pureOp cpu.sbc_a_b memory
  | 0x99 => pureOp cpu.sbc_a_c memory
  | 0x9A => pureOp cpu.sbc_a_d memory
  | 0x9B => pureOp cpu.sbc_a_e memory
  | 0x9C => pureOp cpu.sbc_a_h memory
  | 0x9D => pureOp cpu.sbc_a_l memory
  | 0xC5 => cpu.push_bc memory
  | 0xD5 => cpu.push_de memory
  | 0xE5 => cpu.push_hl memory
  | 0xF5 => cpu.push_af memory
  | 0xC1 => readOp (cpu.pop_bc memory) memory
  | 0xD1 => readOp (cpu.pop_de memory) memory
  | 0xE1 => readOp (cpu.pop_hl memory) memory
  | 0xF1 => readOp (cpu.pop_af memory) memory
  | 0xC9 => readOp (cpu.ret memory) memory
  | 0xD9 => readOp (cpu.reti memory) memory
  | _ => none

/-- `Cpu::execute`: fetch one opcode byte at PC and dispatch. -/
def Cpu.execute (cpu : Cpu) (memory : Memory) : Option (Cpu × Memory × Nat) :=
  match cpu.fetch_byte memory with
  | none => none
  | some (cpu, opcode) => Cpu.execute_opcode cpu opcode memory

/-- Faithful projection of the `Cpu::execute_opcode` dispatch in
src/cpu/instructions.rs: `true` exactly for the opcode bytes that match a
non-panicking arm of the source's primary-table `match` (0xCB included:
its arm dispatches into the fully covered secondary table), `false`
exactly for the bytes that fall through to the `panic!` arm. The arm
groups below are listed in source order. -/
def primaryOpcodeHandled (opcode : Nat) : Bool :=
  match opcode with
  | 0x00 => true
  | 0x7F | 0x78 | 0x79 | 0x7A | 0x7B | 0x7C | 0x7D => true
  | 0x47 | 0x40 | 0x41 | 0x42 | 0x43 | 0x44 | 0x45 => true
  | 0x4F | 0x48 | 0x49 | 0x4A | 0x4B | 0x4C | 0x4D => true
  | 0x3E | 0x06 | 0x0E | 0x16 | 0x1E | 0x26 | 0x2E => true
  | 0x7E | 0x46 | 0x4E | 0x56 | 0x5E | 0x66 | 0x6E => true
  | 0x77 | 0x70 | 0x71 | 0x72 | 0x73 | 0x74 | 0x75 => true
  | 0x36 => true
  | 0x01 | 0x11 | 0x21 | 0x31 => true
  | 0x0A | 0x1A | 0xFA => true
  | 0x02 | 0x12 | 0xEA => true
  | 0x22 | 0x2A | 0x32 | 0x3A => true
  | 0x08 | 0xF9 | 0xF8 => true
  | 0x76 => true
  | 0x07 | 0x0F | 0x17 | 0x1F => true
  | 0x27 | 0x2F | 0x37 | 0x3F => true
  | 0xF3 | 0xFB => true
  | 0xAF | 0xA8 | 0xA9 | 0xAA | 0xAB | 0xAC | 0xAD | 0xAE | 0xEE => true
  | 0x3C | 0x04 | 0x0C | 0x14 | 0x1C | 0x24 | 0x2C | 0x34 => true
  | 0x3D | 0x05 | 0x0D | 0x15 | 0x1D | 0x25 | 0x2D | 0x35 => true
  | 0x03 | 0x13 | 0x23 | 0x33 => true
  | 0x0B | 0x1B | 0x2B | 0x3B => true
  | 0xC3 | 0x18 => true
  | 0x28 | 0x20 | 0x38 | 0x30 => true
  | 0xCA | 0xC2 | 0xDA | 0xD2 => true
  | 0x87 | 0x80 | 0x81 | 0x82 | 0x83 | 0x84 | 0x85 | 0x86 | 0xC6 => true
  | 0x97 | 0x90 | 0x91 | 0x92 | 0x93 | 0x94 | 0x95 | 0x96 | 0xD6 => true
  | 0xA7 | 0xA0 | 0xA1 | 0xA2 | 0xA3 | 0xA4 | 0xA5 | 0xA6 | 0xE6 => true
  | 0xB7 | 0xB0 | 0xB1 | 0xB2 | 0xB3 | 0xB4 | 0xB5 | 0xB6 | 0xF6 => true
  | 0xBF | 0xB8 | 0xB9 | 0xBA | 0xBB | 0xBC | 0xBD | 0xBE | 0xFE => true
  | 0x8F | 0x88 | 0x89 | 0x8A | 0x8B | 0x8C | 0x8D | 0x8E | 0xCE => true
  | 0x9F | 0x98 | 0x99 | 0x9A | 0x9B | 0x9C | 0x9D | 0x9E | 0xDE => true
  | 0xC7 | 0xCF | 0xD7 | 0xDF | 0xE7 | 0xEF | 0xF7 | 0xFF => true
  | 0xC5 | 0xD5 | 0xE5 | 0xF5 => true
  | 0xC1 | 0xD1 | 0xE1 | 0xF1 => true
  | 0xCD | 0xCC | 0xC4 | 0xDC | 0xD4 => true
  | 0xC9 | 0xC8 | 0xC0 | 0xD8 | 0xD0 | 0xD9 => true
  | 0xCB => true
  | _ => false

/-- Emulator harness state, from `GameBoy` in src/gameboy/mod.rs (the
optional trace-log file handle is host I/O and is elided). -/
structure GameBoy where
  cpu : Cpu
  memory : Memory

/-- `GameBoy::new`. -/
def GameBoy.new : GameBoy := { cpu := Cpu.new, memory := Memory.new }

/-- `GameBoy::step`: execute one instruction, tick the timer with the
returned cycle count, and if the tick reported an overflow interrupt, OR
0x04 into the IF byte at 0xFF0F. -/
def GameBoy.step (g : GameBoy) : Option GameBoy :=
  match Cpu.execute g.cpu g.memory with
  | none => none
  | some (cpu, memory, cycles) =>
    let tick := memory.timer.tick cycles
    let memory := { memory with timer := tick.1 }
    if tick.2 then
      match memory.read_byte 0xFF0F with
      | none => none
      | some if_register =>
        match memory.write_byte 0xFF0F (if_register ||| 0x04) with
        | none => none
        | some memory => some { cpu := cpu, memory := memory }
    else
      some { cpu := cpu, memory := memory }

/-! Bit-arithmetic bridging lemmas: the source computes with masks and
shifts; the spec states windows and moduli. -/

theorem land_fifteen (x : Nat) : x &&& 15 = x % 16 := by
  have h := Nat.and_pow_two_sub_one_eq_mod x 4
  norm_num at h
  exact h

theorem land_thirtyone (x : Nat) : x &&& 31 = x % 32 := by
  have h := Nat.and_pow_two_sub_one_eq_mod x 5
  norm_num at h
  exact h

theorem land_byte (x : Nat) : x &&& 255 = x % 256 := by
  have h := Nat.and_pow_two_sub_one_eq_mod x 8
  norm_num at h
  exact h

theorem lor_shiftRight (x y k : Nat) :
    (x ||| y) >>> k = (x >>> k) ||| (y >>> k) := by
  apply Nat.eq_of_testBit_eq
  intro i
  simp [Nat.testBit_lor, Nat.testBit_shiftRight]

theorem shiftLeft8_shiftRight8 (b : Nat) : (b <<< 8) >>> 8 = b := by
  rw [Nat.shiftLeft_eq, Nat.shiftRight_eq_div_pow]
  exact Nat.mul_div_cancel b (by norm_num)

theorem hi_of_hilo (b c : Nat) (hc : c < 256) : ((b <<< 8) ||| c) >>> 8 = b := by
  rw [lor_shiftRight, shiftLeft8_shiftRight8]
  have hzero : c >>> 8 = 0 := by
    rw [Nat.shiftRight_eq_div_pow]
    exact Nat.div_eq_of_lt (by omega)
  rw [hzero, Nat.or_zero]

theorem lo_of_hilo (b c : Nat) (hc : c < 256) : ((b <<< 8) ||| c) &&& 255 = c := by
  rw [Nat.and_distrib_right, land_byte (b <<< 8), land_byte c,
    Nat.shiftLeft_eq]
  have h1 : b * 2 ^ 8 % 256 = 0 := by
    have h2 : (2 : Nat) ^ 8 = 256 := by norm_num
    rw [h2, Nat.mul_mod_left]
  rw [h1, Nat.mod_eq_of_lt hc, Nat.zero_or]

theorem merge_keeps_low5 (rb bank : Nat) :
    ((rb &&& 31) ||| (bank <<< 5)) &&& 31 = rb &&& 31 := by
  rw [Nat.and_distrib_right]
  have h2 : (bank <<< 5) &&& 31 = 0 := by
    rw [land_thirtyone, Nat.shiftLeft_eq]
    have h3 : (2 : Nat) ^ 5 = 32 := by norm_num
    rw [h3, Nat.mul_mod_left]
  have h31 : (31 : Nat) &&& 31 = 31 := by decide
  rw [h2, Nat.or_zero, Nat.land_assoc, h31]

/-- A timer configured as in the repository's own unit tests
(`timer::tests::tima::increments_with_frequency_16`): TAC = 0x05 enables
the timer at the 16-cycle rate, TIMA = 0. -/
def timerFreq16 : Timer :=
  { div_counter := 0, tima := 0, tma := 0, tac := 0x05, tima_counter := 0 }

/-- C1: `Timer::tick` does not implement the claimed contract. For every
timer state and cycle count the implementation advances only the internal
divider counter, leaves TIMA, TMA and the TIMA sub-accumulator untouched,
and returns `true` unconditionally — so with the timer enabled at the
16-cycle rate and TIMA = 0, ticking 16 cycles leaves TIMA at 0 (the claim
requires TIMA = 1) yet reports an overflow (the claim requires `false`
when no 0xFF-to-0x00 overflow occurred). -/
theorem timer_tick_stub_ignores_tima :
    (∀ (t : Timer) (cycles : Nat),
      (t.tick cycles).2 = true ∧
      (t.tick cycles).1.tima = t.tima ∧
      (t.tick cycles).1.tma = t.tma ∧
      (t.tick cycles).1.tima_counter = t.tima_counter ∧
      (t.tick cycles).1.div_counter = wadd16 t.div_counter cycles) ∧
    (timerFreq16.tick 16).1.tima = 0 ∧ (timerFreq16.tick 16).2 = true := by
  refine ⟨fun t cycles => ⟨rfl, rfl, rfl, rfl, rfl⟩, rfl, rfl⟩

/-- C3: the timer-register routing is not total. On a fresh `Memory`,
reading 0xFF05 (TIMA) or 0xFF06 (TMA), and writing either, all reach the
`todo!()` arm of `Timer::read_register`/`Timer::write_register` and panic
(embedded as `none`), while 0xFF04 and 0xFF07 are served; the repository's
own memory tests (`read_tima_register_at_0xff05` and friends) expect the
panicking accesses to succeed. -/
theorem memory_tima_tma_access_panics :
    Memory.new.read_byte 0xFF05 = none ∧
    Memory.new.read_byte 0xFF06 = none ∧
    Memory.new.write_byte 0xFF05 0x42 = none ∧
    Memory.new.write_byte 0xFF06 0xAB = none ∧
    Memory.new.read_byte 0xFF04 = some 0 ∧
    Memory.new.read_byte 0xFF07 = some 0 := by
  refine ⟨rfl, rfl, rfl, rfl, rfl, rfl⟩

/-- C4: a `GameBoy::step` with no TIMA overflow still sets IF bit 0x04.
From the power-on state (NOP at PC = 0x0100, timer disabled, IF = 0,
TIMA = 0 throughout — no 0xFF-to-0x00 overflow is possible), one step
leaves the IF byte at 0xFF0F equal to 0x04 instead of leaving it
unchanged at 0, because the `Timer::tick` stub reports an overflow on
every call; the repository's own test
`gameboy::tests::no_timer_interrupt_without_overflow` expects 0. -/
theorem step_sets_timer_interrupt_without_overflow :
    Memory.new.data 0xFF0F = 0 ∧
    GameBoy.new.memory.timer.tima = 0 ∧
    (GameBoy.new.step).map
        (fun g => (g.memory.data 0xFF0F, g.memory.timer.tima, g.cpu.pc)) =
      some (0x04, 0, 0x0101) := by
  refine ⟨rfl, rfl, rfl⟩

/-- The 21 documented 8-bit register-to-register LD opcodes whose
destination is A, B or C — exactly the LD r,r' arms present in
`Cpu::execute_opcode`. -/
def ldRegRegDestABC : List Nat :=
  [0x7F, 0x78, 0x79, 0x7A, 0x7B, 0x7C, 0x7D,
   0x47, 0x40, 0x41, 0x42, 0x43, 0x44, 0x45,
   0x4F, 0x48, 0x49, 0x4A, 0x4B, 0x4C, 0x4D]

/-- The 24 documented 8-bit register-to-register LD opcodes whose
destination is D, E, H or L (register sources only; the (HL)-source
loads 0x56/0x5E/0x66/0x6E are separate opcodes and are implemented). -/
def ldRegRegDestDEHL : List Nat :=
  [0x57, 0x50, 0x51, 0x52, 0x53, 0x54, 0x55,
   0x5F, 0x58, 0x59, 0x5A, 0x5B, 0x5C, 0x5D,
   0x67, 0x60, 0x61, 0x62, 0x63, 0x64, 0x65,
   0x6F, 0x68, 0x69, 0x6A, 0x6B, 0x6C, 0x6D]

/-- C2 counterexample: opcode 0x50 (LD D,B), a documented primary-map
register-to-register load, matches no arm of the `Cpu::execute_opcode`
dispatch and falls through to the unimplemented-opcode `panic!`. -/
theorem ld_d_b_unmapped : primaryOpcodeHandled 0x50 = false := rfl

/-- C2 (amended): the dispatch decodes, without reaching the panic
branch, every 8-bit register-to-register LD with destination A, B or C
(and those execute to a cycle count on any state), but the panic branch
is reachable for documented opcodes: every register-to-register LD with
destination D, E, H or L falls through to it. -/
theorem ld_dispatch_covers_dest_abc_only :
    (∀ op ∈ ldRegRegDestABC, primaryOpcodeHandled op = true) ∧
    (∀ op ∈ ldRegRegDestDEHL, primaryOpcodeHandled op = false) ∧
    (∀ op ∈ ldRegRegDestABC, ∀ (cpu : Cpu) (memory : Memory),
      (Cpu.execute_opcode cpu op memory).isSome = true) := by
  refine ⟨by decide, by decide, ?_⟩
  intro op hop cpu memory
  fin_cases hop <;> rfl

/-- C2 witness: the amended statement at concrete inputs — 0x78 (LD A,B)
is decoded and executes on the power-on state; 0x50 (LD D,B) panics. -/
theorem ld_dispatch_witness :
    primaryOpcodeHandled 0x78 = true ∧
    primaryOpcodeHandled 0x50 = false ∧
    (Cpu.execute_opcode Cpu.new 0x78 Memory.new).isSome = true :=
  ⟨ld_dispatch_covers_dest_abc_only.1 0x78 (by decide),
   ld_dispatch_covers_dest_abc_only.2.1 0x50 (by decide),
   ld_dispatch_covers_dest_abc_only.2.2 0x78 (by decide) Cpu.new Memory.new⟩

/-- An MBC1 cartridge whose upper ROM-bank bits have been latched:
`rom_bank = 0x21` (upper-bit field 0x20, low-5 field 0x01). -/
def cartUpper : Cartridge :=
  { rom := [], ram := []
    header :=
      { title := [], cartridge_type := CartridgeType.Mbc1,
        rom_size := 0x100000, ram_size := 0 }
    rom_bank := 0x21, ram_bank := 0, ram_enabled := false, banking_mode := 0 }

/-- C5 counterexample: writing 0x02 to 0x2000 on a cartridge with
`rom_bank = 0x21` yields `rom_bank = 0x02`, not the claimed
`(0x21 & 0x60) | (0x02 & 0x1F) = 0x22`: the latched upper bits are
discarded. -/
theorem write_mbc1_discards_upper_bits :
    (cartUpper.write_mbc1 0x2000 0x02).rom_bank = 0x02 ∧
    (cartUpper.rom_bank &&& 0x60) ||| (0x02 &&& 0x1F) = 0x22 ∧
    (0x02 : Nat) ≠ 0x22 := by
  refine ⟨rfl, rfl, by decide⟩

/-- C5 (amended): for every cartridge state and value v written to
0x2000-0x3FFF, the resulting ROM bank latch equals `v & 0x1F` with a zero
low-5 field becoming 1; the previously latched upper two bits (mask 0x60)
are discarded by the write, not preserved. -/
theorem write_mbc1_rom_bank_low5 :
    ∀ (c : Cartridge) (addr value : Nat),
      0x2000 ≤ addr → addr ≤ 0x3FFF →
      (c.write_mbc1 addr value).rom_bank =
        (if value &&& 0x1F = 0 then 1 else value &&& 0x1F) := by
  intro c addr value h1 h2
  unfold Cartridge.write_mbc1
  rw [if_neg (by omega), if_pos (by omega)]

/-- C5 witness: the amended statement at `cartUpper`, address 0x2000,
values 0x02 and 0x00. -/
theorem write_mbc1_rom_bank_low5_witness :
    (cartUpper.write_mbc1 0x2000 0x02).rom_bank =
      (if 0x02 &&& 0x1F = 0 then 1 else (0x02 : Nat) &&& 0x1F) ∧
    (cartUpper.write_mbc1 0x2000 0x00).rom_bank =
      (if 0x00 &&& 0x1F = 0 then 1 else (0x00 : Nat) &&& 0x1F) :=
  ⟨write_mbc1_rom_bank_low5 cartUpper 0x2000 0x02 (by decide) (by decide),
   write_mbc1_rom_bank_low5 cartUpper 0x2000 0x00 (by decide) (by decide)⟩

/-- C6 counterexample: on the power-on state (interrupt master enable
false, SP = 0xFFFE, zeroed memory) RETI executes but leaves the
interrupt-master-enable flag false; the claim requires it to become
true. -/
theorem reti_leaves_ime_disabled :
    Cpu.new.interrupts_enabled = false ∧
    (Cpu.reti Cpu.new Memory.new).map (fun p => p.1.interrupts_enabled) =
      some false := by
  refine ⟨rfl, rfl⟩

/-- C6 (amended): RETI pops a 16-bit return address from the stack into
PC (low byte read first at SP, then the high byte; SP incremented twice)
and returns 16 cycles, but it leaves the interrupt-master-enable flag
unchanged (the re-enable is an explicit TODO in the source). -/
theorem reti_pops_and_returns_16 :
    ∀ (cpu : Cpu) (memory : Memory) (low high : Nat),
      memory.read_byte cpu.sp = some low →
      memory.read_byte (wadd16 cpu.sp 1) = some high →
      Cpu.reti cpu memory =
        some ({ cpu with sp := (cpu.sp + 2) % 65536,
                         pc := (high <<< 8) ||| low }, 16) ∧
      (Cpu.reti cpu memory).map (fun p => p.1.interrupts_enabled) =
        some cpu.interrupts_enabled := by
  intro cpu memory low high hlow hhigh
  have hsp : wadd16 (wadd16 cpu.sp 1) 1 = (cpu.sp + 2) % 65536 := by
    unfold wadd16
    omega
  have hmain : Cpu.reti cpu memory =
      some ({ cpu with sp := (cpu.sp + 2) % 65536,
                       pc := (high <<< 8) ||| low }, 16) := by
    unfold Cpu.reti
    simp only [hlow, hhigh]
    rw [hsp]
  exact ⟨hmain, by rw [hmain]; rfl⟩

/-- C6 witness: the amended statement on the power-on state (both stack
bytes read 0, so RETI jumps to 0x0000 with SP wrapped to 0x0000). -/
theorem reti_pops_witness :
    Cpu.reti Cpu.new Memory.new =
      some ({ Cpu.new with sp := (Cpu.new.sp + 2) % 65536,
                           pc := (0 <<< 8) ||| 0 }, 16) ∧
    (Cpu.reti Cpu.new Memory.new).map (fun p => p.1.interrupts_enabled) =
      some Cpu.new.interrupts_enabled :=
  reti_pops_and_returns_16 Cpu.new Memory.new 0 0 rfl rfl

theorem wadd8_wadd8 (a v c : Nat) : wadd8 (wadd8 a v) c = (a + v + c) % 256 := by
  unfold wadd8
  omega

theorem wsub8_wsub8 (a v c : Nat) (ha : a ≤ 255) (hv : v ≤ 255) (hc : c ≤ 1) :
    wsub8 (wsub8 a v) c = (a + 512 - v - c) % 256 := by
  unfold wsub8
  omega

theorem add_a_row (cpu : Cpu) (v : Nat) :
    (cpu.add_a v).1.registers.a = (cpu.registers.a + v) % 256 ∧
    ((cpu.add_a v).1.registers.f.z = true ↔ (cpu.registers.a + v) % 256 = 0) ∧
    (cpu.add_a v).1.registers.f.n = false ∧
    ((cpu.add_a v).1.registers.f.h = true ↔
      0x0F < cpu.registers.a % 16 + v % 16) ∧
    ((cpu.add_a v).1.registers.f.c = true ↔ 0xFF < cpu.registers.a + v) := by
  simp [Cpu.add_a, wadd8, land_fifteen, beq_iff_eq, decide_eq_true_eq]

theorem sub_a_row (cpu : Cpu) (v : Nat) (hv : v ≤ 0xFF) :
    (cpu.sub_a v).1.registers.a = (cpu.registers.a + 256 - v) % 256 ∧
    ((cpu.sub_a v).1.registers.f.z = true ↔
      (cpu.registers.a + 256 - v) % 256 = 0) ∧
    (cpu.sub_a v).1.registers.f.n = true ∧
    ((cpu.sub_a v).1.registers.f.h = true ↔
      cpu.registers.a % 16 < v % 16) ∧
    ((cpu.sub_a v).1.registers.f.c = true ↔ cpu.registers.a < v) := by
  have key : wsub8 cpu.registers.a v = (cpu.registers.a + 256 - v) % 256 := by
    unfold wsub8
    omega
  simp [Cpu.sub_a, key, land_fifteen, beq_iff_eq, decide_eq_true_eq]

theorem and_a_row (cpu : Cpu) (v : Nat) :
    (cpu.and_a v).1.registers.a = cpu.registers.a &&& v ∧
    ((cpu.and_a v).1.registers.f.z = true ↔ cpu.registers.a &&& v = 0) ∧
    (cpu.and_a v).1.registers.f.n = false ∧
    (cpu.and_a v).1.registers.f.h = true ∧
    (cpu.and_a v).1.registers.f.c = false := by
  simp [Cpu.and_a, beq_iff_eq]

theorem or_a_row (cpu : Cpu) (v : Nat) :
    (cpu.or_a v).1.registers.a = cpu.registers.a ||| v ∧
    ((cpu.or_a v).1.registers.f.z = true ↔ cpu.registers.a ||| v = 0) ∧
    (cpu.or_a v).1.registers.f.n = false ∧
    (cpu.or_a v).1.registers.f.h = false ∧
    (cpu.or_a v).1.registers.f.c = false := by
  simp [Cpu.or_a, beq_iff_eq]

theorem xor_b_row (cpu : Cpu) :
    (cpu.xor_b).1.registers.a = cpu.registers.a ^^^ cpu.registers.b ∧
    ((cpu.xor_b).1.registers.f.z = true ↔
      cpu.registers.a ^^^ cpu.registers.b = 0) ∧
    (cpu.xor_b).1.registers.f.n = false ∧
    (cpu.xor_b).1.registers.f.h = false ∧
    (cpu.xor_b).1.registers.f.c = false := by
  simp [Cpu.xor_b, beq_iff_eq]

theorem cp_a_row (cpu : Cpu) (v : Nat) (hv : v ≤ 0xFF) :
    (cpu.cp_a v).1.registers.a = cpu.registers.a ∧
    ((cpu.cp_a v).1.registers.f.z = true ↔
      (cpu.registers.a + 256 - v) % 256 = 0) ∧
    (cpu.cp_a v).1.registers.f.n = true ∧
    ((cpu.cp_a v).1.registers.f.h = true ↔
      cpu.registers.a % 16 < v % 16) ∧
    ((cpu.cp_a v).1.registers.f.c = true ↔ cpu.registers.a < v) := by
  have key : wsub8 cpu.registers.a v = (cpu.registers.a + 256 - v) % 256 := by
    unfold wsub8
    omega
  simp [Cpu.cp_a, key, land_fifteen, beq_iff_eq, decide_eq_true_eq]

theorem adc_a_row (cpu : Cpu) (v : Nat) :
    (cpu.adc_a v).1.registers.a =
      (cpu.registers.a + v + (if cpu.registers.f.c then 1 else 0)) % 256 ∧
    ((cpu.adc_a v).1.registers.f.z = true ↔
      (cpu.registers.a + v + (if cpu.registers.f.c then 1 else 0)) % 256 = 0) ∧
    (cpu.adc_a v).1.registers.f.n = false ∧
    ((cpu.adc_a v).1.registers.f.h = true ↔
      0x0F < cpu.registers.a % 16 + v % 16 +
        (if cpu.registers.f.c then 1 else 0)) ∧
    ((cpu.adc_a v).1.registers.f.c = true ↔
      0xFF < cpu.registers.a + v + (if cpu.registers.f.c then 1 else 0)) := by
  simp [Cpu.adc_a, wadd8_wadd8, land_fifteen, beq_iff_eq, decide_eq_true_eq]

theorem sbc_a_row (cpu : Cpu) (v : Nat)
    (ha : cpu.registers.a ≤ 0xFF) (hv : v ≤ 0xFF) :
    (cpu.sbc_a v).1.registers.a =
      (cpu.registers.a + 512 - v - (if cpu.registers.f.c then 1 else 0)) % 256 ∧
    ((cpu.sbc_a v).1.registers.f.z = true ↔
      (cpu.registers.a + 512 - v -
        (if cpu.registers.f.c then 1 else 0)) % 256 = 0) ∧
    (cpu.sbc_a v).1.registers.f.n = true ∧
    ((cpu.sbc_a v).1.registers.f.h = true ↔
      cpu.registers.a % 16 < v % 16 +
        (if cpu.registers.f.c then 1 else 0)) ∧
    ((cpu.sbc_a v).1.registers.f.c = true ↔
      cpu.registers.a < v + (if cpu.registers.f.c then 1 else 0)) := by
  have hc : (if cpu.registers.f.c then 1 else 0) ≤ 1 := by
    split <;> omega
  have key := wsub8_wsub8 cpu.registers.a v
    (if cpu.registers.f.c then 1 else 0) ha hv hc
  simp [Cpu.sbc_a, key, land_fifteen, beq_iff_eq, decide_eq_true_eq]

/-- C7: the arithmetic/logic helpers satisfy the flag table of the spec
(§4.1): for 8-bit A and operand v, ADD sets A to (A+v) mod 256 with
Z = (result = 0), N = 0, H = (low nibbles sum past 0xF), C = (A+v past
0xFF); SUB/CP borrow-style with N = 1; AND forces H = 1 and C = 0; OR and
XOR clear N, H, C; ADC and SBC fold the incoming carry into the result
and into the H and C conditions. (XOR is per-register in the source; the
`xor_b` helper witnesses its row.) -/
theorem alu_flag_table :
    ∀ (cpu : Cpu) (v : Nat), cpu.registers.a ≤ 0xFF → v ≤ 0xFF →
      ((cpu.add_a v).1.registers.a = (cpu.registers.a + v) % 256 ∧
       ((cpu.add_a v).1.registers.f.z = true ↔
         (cpu.registers.a + v) % 256 = 0) ∧
       (cpu.add_a v).1.registers.f.n = false ∧
       ((cpu.add_a v).1.registers.f.h = true ↔
         0x0F < cpu.registers.a % 16 + v % 16) ∧
       ((cpu.add_a v).1.registers.f.c = true ↔
         0xFF < cpu.registers.a + v)) ∧
      ((cpu.sub_a v).1.registers.a = (cpu.registers.a + 256 - v) % 256 ∧
       ((cpu.sub_a v).1.registers.f.z = true ↔
         (cpu.registers.a + 256 - v) % 256 = 0) ∧
       (cpu.sub_a v).1.registers.f.n = true ∧
       ((cpu.sub_a v).1.registers.f.h = true ↔
         cpu.registers.a % 16 < v % 16) ∧
       ((cpu.sub_a v).1.registers.f.c = true ↔ cpu.registers.a < v)) ∧
      ((cpu.and_a v).1.registers.a = cpu.registers.a &&& v ∧
       ((cpu.and_a v).1.registers.f.z = true ↔ cpu.registers.a &&& v = 0) ∧
       (cpu.and_a v).1.registers.f.n = false ∧
       (cpu.and_a v).1.registers.f.h = true ∧
       (cpu.and_a v).1.registers.f.c = false) ∧
      ((cpu.or_a v).1.registers.a = cpu.registers.a ||| v ∧
       ((cpu.or_a v).1.registers.f.z = true ↔ cpu.registers.a ||| v = 0) ∧
       (cpu.or_a v).1.registers.f.n = false ∧
       (cpu.or_a v).1.registers.f.h = false ∧
       (cpu.or_a v).1.registers.f.c = false) ∧
      ((cpu.xor_b).1.registers.a = cpu.registers.a ^^^ cpu.registers.b ∧
       ((cpu.xor_b).1.registers.f.z = true ↔
         cpu.registers.a ^^^ cpu.registers.b = 0) ∧
       (cpu.xor_b).1.registers.f.n = false ∧
       (cpu.xor_b).1.registers.f.h = false ∧
       (cpu.xor_b).1.registers.f.c = false) ∧
      ((cpu.cp_a v).1.registers.a = cpu.registers.a ∧
       ((cpu.cp_a v).1.registers.f.z = true ↔
         (cpu.registers.a + 256 - v) % 256 = 0) ∧
       (cpu.cp_a v).1.registers.f.n = true ∧
       ((cpu.cp_a v).1.registers.f.h = true ↔
         cpu.registers.a % 16 < v % 16) ∧
       ((cpu.cp_a v).1.registers.f.c = true ↔ cpu.registers.a < v)) ∧
      ((cpu.adc_a v).1.registers.a =
        (cpu.registers.a + v + (if cpu.registers.f.c then 1 else 0)) % 256 ∧
       ((cpu.adc_a v).1.registers.f.z = true ↔
         (cpu.registers.a + v +
           (if cpu.registers.f.c then 1 else 0)) % 256 = 0) ∧
       (cpu.adc_a v).1.registers.f.n = false ∧
       ((cpu.adc_a v).1.registers.f.h = true ↔
         0x0F < cpu.registers.a % 16 + v % 16 +
           (if cpu.registers.f.c then 1 else 0)) ∧
       ((cpu.adc_a v).1.registers.f.c = true ↔
         0xFF < cpu.registers.a + v +
           (if cpu.registers.f.c then 1 else 0))) ∧
      ((cpu.sbc_a v).1.registers.a =
        (cpu.registers.a + 512 - v -
          (if cpu.registers.f.c then 1 else 0)) % 256 ∧
       ((cpu.sbc_a v).1.registers.f.z = true ↔
         (cpu.registers.a + 512 - v -
           (if cpu.registers.f.c then 1 else 0)) % 256 = 0) ∧
       (cpu.sbc_a v).1.registers.f.n = true ∧
       ((cpu.sbc_a v).1.registers.f.h = true ↔
         cpu.registers.a % 16 < v % 16 +
           (if cpu.registers.f.c then 1 else 0)) ∧
       ((cpu.sbc_a v).1.registers.f.c = true ↔
         cpu.registers.a < v + (if cpu.registers.f.c then 1 else 0))) := by
  intro cpu v ha hv
  exact ⟨add_a_row cpu v, sub_a_row cpu v hv, and_a_row cpu v, or_a_row cpu v,
    xor_b_row cpu, cp_a_row cpu v hv, adc_a_row cpu v, sbc_a_row cpu v ha hv⟩

/-- C7 witness: the table instantiated on the power-on state (A = 0x01)
with operand 0xFF: ADD gives A = 0x00, SUB sets the carry (borrow). -/
theorem alu_flag_table_witness :
    (Cpu.new.add_a 0xFF).1.registers.a = (Cpu.new.registers.a + 0xFF) % 256 ∧
    ((Cpu.new.sub_a 0xFF).1.registers.f.c = true ↔
      Cpu.new.registers.a < 0xFF) :=
  ⟨(alu_flag_table Cpu.new 0xFF (by decide) (by decide)).1.1,
   (alu_flag_table Cpu.new 0xFF (by decide) (by decide)).2.1.2.2.2.2⟩

/-- Addresses served by the plain backing array of the bus in both
directions regardless of cartridge presence: VRAM (0x8000-0x9FFF) and the
0xC000-0xFFFF block minus the four timer registers. -/
def backingAddr (a : Nat) : Prop :=
  (0x8000 ≤ a ∧ a ≤ 0x9FFF) ∨
    (0xC000 ≤ a ∧ a ≤ 0xFFFF ∧ ¬(0xFF04 ≤ a ∧ a ≤ 0xFF07))

theorem read_byte_backing (m : Memory) (a : Nat) (h : backingAddr a) :
    m.read_byte a = some (m.data a) := by
  unfold backingAddr at h
  unfold Memory.read_byte
  rcases h with ⟨h1, h2⟩ | ⟨h1, h2, h3⟩
  · rw [if_neg (by omega), if_neg (by omega), if_pos (by omega)]
  · rw [if_neg (by omega), if_neg (by omega), if_neg (by omega),
      if_neg (by omega), if_neg h3]

theorem write_byte_backing (m : Memory) (a v : Nat) (h : backingAddr a) :
    m.write_byte a v =
      some { m with data := fun x => if x = a then v else m.data x } := by
  unfold backingAddr at h
  unfold Memory.write_byte
  rcases h with ⟨h1, h2⟩ | ⟨h1, h2, h3⟩
  · rw [if_neg (by omega), if_pos (by omega)]
  · rw [if_neg (by omega), if_neg (by omega), if_neg (by omega), if_neg h3]

theorem set_from_u8_to_u8 (f : Flags) : Flags.set_from_u8 f.to_u8 = f := by
  rcases f with ⟨z, n, h, c⟩
  cases z <;> cases n <;> cases h <;> cases c <;> rfl

theorem to_u8_lt (f : Flags) : f.to_u8 < 256 := by
  rcases f with ⟨z, n, h, c⟩
  cases z <;> cases n <;> cases h <;> cases c <;> decide

theorem to_u8_low_nibble (f : Flags) : f.to_u8 &&& 0x0F = 0 := by
  rcases f with ⟨z, n, h, c⟩
  cases z <;> cases n <;> cases h <;> cases c <;> decide

/-- The two-instruction program PUSH BC; POP BC. -/
def pushPopBC (cpu : Cpu) (m : Memory) : Option Cpu :=
  match cpu.push_bc m with
  | none => none
  | some (cpu1, m1, _) =>
    match cpu1.pop_bc m1 with
    | none => none
    | some (cpu2, _) => some cpu2

/-- The two-instruction program PUSH DE; POP DE. -/
def pushPopDE (cpu : Cpu) (m : Memory) : Option Cpu :=
  match cpu.push_de m with
  | none => none
  | some (cpu1, m1, _) =>
    match cpu1.pop_de m1 with
    | none => none
    | some (cpu2, _) => some cpu2

/-- The two-instruction program PUSH HL; POP HL. -/
def pushPopHL (cpu : Cpu) (m : Memory) : Option Cpu :=
  match cpu.push_hl m with
  | none => none
  | some (cpu1, m1, _) =>
    match cpu1.pop_hl m1 with
    | none => none
    | some (cpu2, _) => some cpu2

/-- The two-instruction program PUSH AF; POP AF. -/
def pushPopAF (cpu : Cpu) (m : Memory) : Option Cpu :=
  match cpu.push_af m with
  | none => none
  | some (cpu1, m1, _) =>
    match cpu1.pop_af m1 with
    | none => none
    | some (cpu2, _) => some cpu2

theorem pushPopBC_restores (cpu : Cpu) (m : Memory)
    (hsp : cpu.sp ≤ 0xFFFF)
    (hb8 : cpu.registers.b ≤ 0xFF) (hc8 : cpu.registers.c ≤ 0xFF)
    (h1 : backingAddr (wsub16 cpu.sp 1))
    (h2 : backingAddr (wsub16 (wsub16 cpu.sp 1) 1)) :
    (pushPopBC cpu m).map (fun c2 => (c2.registers.b, c2.registers.c, c2.sp)) =
      some (cpu.registers.b, cpu.registers.c, cpu.sp) := by
  have hne : wsub16 cpu.sp 1 ≠ wsub16 (wsub16 cpu.sp 1) 1 := by
    unfold wsub16
    omega
  have hback : wadd16 (wsub16 (wsub16 cpu.sp 1) 1) 1 = wsub16 cpu.sp 1 := by
    unfold wadd16 wsub16
    omega
  have hsp1 : wadd16 (wsub16 cpu.sp 1) 1 = cpu.sp := by
    unfold wadd16 wsub16
    omega
  have hhi2 : ((cpu.registers.b <<< 8) ||| cpu.registers.c) >>> 8 =
      cpu.registers.b := hi_of_hilo _ _ (by omega)
  have hlo2 : ((cpu.registers.b <<< 8) ||| cpu.registers.c) &&& 0xFF =
      cpu.registers.c := lo_of_hilo _ _ (by omega)
  have hhi : cpu.registers.bc >>> 8 = cpu.registers.b := hhi2
  have hlo : cpu.registers.bc &&& 0xFF = cpu.registers.c := hlo2
  have hmb : cpu.registers.b % 256 = cpu.registers.b := Nat.mod_eq_of_lt (by omega)
  have hmc : cpu.registers.c % 256 = cpu.registers.c := Nat.mod_eq_of_lt (by omega)
  unfold pushPopBC Cpu.push_bc Cpu.pop_bc
  simp only [write_byte_backing _ _ _ h1, write_byte_backing _ _ _ h2]
  simp [read_byte_backing _ _ h1, read_byte_backing _ _ h2, hback, hne,
    hhi, hlo, hhi2, hlo2, hsp1, Registers.set_bc, hmb, hmc]

theorem pushPopDE_restores (cpu : Cpu) (m : Memory)
    (hsp : cpu.sp ≤ 0xFFFF)
    (hd8 : cpu.registers.d ≤ 0xFF) (he8 : cpu.registers.e ≤ 0xFF)
    (h1 : backingAddr (wsub16 cpu.sp 1))
    (h2 : backingAddr (wsub16 (wsub16 cpu.sp 1) 1)) :
    (pushPopDE cpu m).map (fun c2 => (c2.registers.d, c2.registers.e, c2.sp)) =
      some (cpu.registers.d, cpu.registers.e, cpu.sp) := by
  have hne : wsub16 cpu.sp 1 ≠ wsub16 (wsub16 cpu.sp 1) 1 := by
    unfold wsub16
    omega
  have hback : wadd16 (wsub16 (wsub16 cpu.sp 1) 1) 1 = wsub16 cpu.sp 1 := by
    unfold wadd16 wsub16
    omega
  have hsp1 : wadd16 (wsub16 cpu.sp 1) 1 = cpu.sp := by
    unfold wadd16 wsub16
    omega
  have hhi2 : ((cpu.registers.d <<< 8) ||| cpu.registers.e) >>> 8 =
      cpu.registers.d := hi_of_hilo _ _ (by omega)
  have hlo2 : ((cpu.registers.d <<< 8) ||| cpu.registers.e) &&& 0xFF =
      cpu.registers.e := lo_of_hilo _ _ (by omega)
  have hhi : cpu.registers.de >>> 8 = cpu.registers.d := hhi2
  have hlo : cpu.registers.de &&& 0xFF = cpu.registers.e := hlo2
  have hmd : cpu.registers.d % 256 = cpu.registers.d := Nat.mod_eq_of_lt (by omega)
  have hme : cpu.registers.e % 256 = cpu.registers.e := Nat.mod_eq_of_lt (by omega)
  unfold pushPopDE Cpu.push_de Cpu.pop_de
  simp only [write_byte_backing _ _ _ h1, write_byte_backing _ _ _ h2]
  simp [read_byte_backing _ _ h1, read_byte_backing _ _ h2, hback, hne,
    hhi, hlo, hhi2, hlo2, hsp1, Registers.set_de, hmd, hme]

theorem pushPopHL_restores (cpu : Cpu) (m : Memory)
    (hsp : cpu.sp ≤ 0xFFFF)
    (hh8 : cpu.registers.h ≤ 0xFF) (hl8 : cpu.registers.l ≤ 0xFF)
    (h1 : backingAddr (wsub16 cpu.sp 1))
    (h2 : backingAddr (wsub16 (wsub16 cpu.sp 1) 1)) :
    (pushPopHL cpu m).map (fun c2 => (c2.registers.h, c2.registers.l, c2.sp)) =
      some (cpu.registers.h, cpu.registers.l, cpu.sp) := by
  have hne : wsub16 cpu.sp 1 ≠ wsub16 (wsub16 cpu.sp 1) 1 := by
    unfold wsub16
    omega
  have hback : wadd16 (wsub16 (wsub16 cpu.sp 1) 1) 1 = wsub16 cpu.sp 1 := by
    unfold wadd16 wsub16
    omega
  have hsp1 : wadd16 (wsub16 cpu.sp 1) 1 = cpu.sp := by
    unfold wadd16 wsub16
    omega
  have hhi2 : ((cpu.registers.h <<< 8) ||| cpu.registers.l) >>> 8 =
      cpu.registers.h := hi_of_hilo _ _ (by omega)
  have hlo2 : ((cpu.registers.h <<< 8) ||| cpu.registers.l) &&& 0xFF =
      cpu.registers.l := lo_of_hilo _ _ (by omega)
  have hhi : cpu.registers.hl >>> 8 = cpu.registers.h := hhi2
  have hlo : cpu.registers.hl &&& 0xFF = cpu.registers.l := hlo2
  have hmh : cpu.registers.h % 256 = cpu.registers.h := Nat.mod_eq_of_lt (by omega)
  have hml : cpu.registers.l % 256 = cpu.registers.l := Nat.mod_eq_of_lt (by omega)
  unfold pushPopHL Cpu.push_hl Cpu.pop_hl
  simp only [write_byte_backing _ _ _ h1, write_byte_backing _ _ _ h2]
  simp [read_byte_backing _ _ h1, read_byte_backing _ _ h2, hback, hne,
    hhi, hlo, hhi2, hlo2, hsp1, Registers.set_hl, hmh, hml]

theorem pushPopAF_restores (cpu : Cpu) (m : Memory)
    (hsp : cpu.sp ≤ 0xFFFF) (ha8 : cpu.registers.a ≤ 0xFF)
    (h1 : backingAddr (wsub16 cpu.sp 1))
    (h2 : backingAddr (wsub16 (wsub16 cpu.sp 1) 1)) :
    (pushPopAF cpu m).map
        (fun c2 => (c2.registers.a, c2.registers.f, c2.sp,
          c2.registers.f.to_u8 &&& 0x0F)) =
      some (cpu.registers.a, cpu.registers.f, cpu.sp, 0) := by
  have hne : wsub16 cpu.sp 1 ≠ wsub16 (wsub16 cpu.sp 1) 1 := by
    unfold wsub16
    omega
  have hback : wadd16 (wsub16 (wsub16 cpu.sp 1) 1) 1 = wsub16 cpu.sp 1 := by
    unfold wadd16 wsub16
    omega
  have hsp1 : wadd16 (wsub16 cpu.sp 1) 1 = cpu.sp := by
    unfold wadd16 wsub16
    omega
  have hhi2 : ((cpu.registers.a <<< 8) ||| cpu.registers.f.to_u8) >>> 8 =
      cpu.registers.a := hi_of_hilo _ _ (to_u8_lt _)
  have hlo2 : ((cpu.registers.a <<< 8) ||| cpu.registers.f.to_u8) &&& 0xFF =
      cpu.registers.f.to_u8 := lo_of_hilo _ _ (to_u8_lt _)
  have hhi : cpu.registers.af >>> 8 = cpu.registers.a := hhi2
  have hlo : cpu.registers.af &&& 0xFF = cpu.registers.f.to_u8 := hlo2
  have hma : cpu.registers.a % 256 = cpu.registers.a := Nat.mod_eq_of_lt (by omega)
  have hf : Flags.set_from_u8 cpu.registers.f.to_u8 = cpu.registers.f :=
    set_from_u8_to_u8 _
  unfold pushPopAF Cpu.push_af Cpu.pop_af
  simp only [write_byte_backing _ _ _ h1, write_byte_backing _ _ _ h2]
  simp [read_byte_backing _ _ h1, read_byte_backing _ _ h2, hback, hne,
    hhi, hlo, hhi2, hlo2, hsp1, Registers.set_af, hma, hf, to_u8_low_nibble]

/-- C8: with the two stack bytes routed to the plain backing array,
PUSH rr; POP rr restores the pair and SP for rr in BC, DE, HL and AF;
for AF the popped F byte re-materializes the flag booleans, and the low
nibble of the F byte reads back as 0 regardless of what was pushed
(the F byte is materialized by `Flags::to_u8`, whose low nibble is
always 0). -/
theorem push_pop_roundtrip :
    ∀ (cpu : Cpu) (m : Memory),
      cpu.sp ≤ 0xFFFF →
      cpu.registers.a ≤ 0xFF → cpu.registers.b ≤ 0xFF →
      cpu.registers.c ≤ 0xFF → cpu.registers.d ≤ 0xFF →
      cpu.registers.e ≤ 0xFF → cpu.registers.h ≤ 0xFF →
      cpu.registers.l ≤ 0xFF →
      backingAddr (wsub16 cpu.sp 1) →
      backingAddr (wsub16 (wsub16 cpu.sp 1) 1) →
      ((pushPopBC cpu m).map
          (fun c2 => (c2.registers.b, c2.registers.c, c2.sp)) =
        some (cpu.registers.b, cpu.registers.c, cpu.sp)) ∧
      ((pushPopDE cpu m).map
          (fun c2 => (c2.registers.d, c2.registers.e, c2.sp)) =
        some (cpu.registers.d, cpu.registers.e, cpu.sp)) ∧
      ((pushPopHL cpu m).map
          (fun c2 => (c2.registers.h, c2.registers.l, c2.sp)) =
        some (cpu.registers.h, cpu.registers.l, cpu.sp)) ∧
      ((pushPopAF cpu m).map
          (fun c2 => (c2.registers.a, c2.registers.f, c2.sp,
            c2.registers.f.to_u8 &&& 0x0F)) =
        some (cpu.registers.a, cpu.registers.f, cpu.sp, 0)) := by
  intro cpu m hsp ha8 hb8 hc8 hd8 he8 hh8 hl8 h1 h2
  exact ⟨pushPopBC_restores cpu m hsp hb8 hc8 h1 h2,
    pushPopDE_restores cpu m hsp hd8 he8 h1 h2,
    pushPopHL_restores cpu m hsp hh8 hl8 h1 h2,
    pushPopAF_restores cpu m hsp ha8 h1 h2⟩

/-- C8 witness: the roundtrip on the power-on state (SP = 0xFFFE, stack
bytes at 0xFFFD/0xFFFC, both in the backing 0xC000-0xFFFF block). -/
theorem push_pop_roundtrip_witness :
    ((pushPopBC Cpu.new Memory.new).map
        (fun c2 => (c2.registers.b, c2.registers.c, c2.sp)) =
      some (Cpu.new.registers.b, Cpu.new.registers.c, Cpu.new.sp)) ∧
    ((pushPopAF Cpu.new Memory.new).map
        (fun c2 => (c2.registers.a, c2.registers.f, c2.sp,
          c2.registers.f.to_u8 &&& 0x0F)) =
      some (Cpu.new.registers.a, Cpu.new.registers.f, Cpu.new.sp, 0)) :=
  ⟨(push_pop_roundtrip Cpu.new Memory.new (by decide) (by decide) (by decide)
      (by decide) (by decide) (by decide) (by decide) (by decide)
      (by unfold backingAddr; decide) (by unfold backingAddr; decide)).1,
   (push_pop_roundtrip Cpu.new Memory.new (by decide) (by decide) (by decide)
      (by decide) (by decide) (by decide) (by decide) (by decide)
      (by unfold backingAddr; decide) (by unfold backingAddr; decide)).2.2.2⟩

/-- Fold a sequence of MBC control-or-RAM writes over a cartridge (the
shape in which bus writes to 0x0000-0x7FFF and 0xA000-0xBFFF reach
`Cartridge::write_byte`). -/
def applyWrites (c : Cartridge) (ws : List (Nat × Nat)) : Cartridge :=
  ws.foldl (fun acc p => acc.write_byte p.1 p.2) c

theorem write_mbc1_preserves_low5 (c : Cartridge) (a v : Nat)
    (h : c.rom_bank &&& 0x1F ≠ 0) :
    (c.write_mbc1 a v).rom_bank &&& 0x1F ≠ 0 := by
  unfold Cartridge.write_mbc1
  dsimp only
  split_ifs with h1 h2 h3 h4 h5 h6 h7 h8 h9 <;>
    first
    | exact h
    | decide
    | (dsimp only; rw [merge_keeps_low5]; exact h)
    | (dsimp only; simp only [land_thirtyone] at *; omega)

theorem write_byte_preserves_low5 (c : Cartridge) (a v : Nat)
    (h : c.rom_bank &&& 0x1F ≠ 0) :
    (c.write_byte a v).rom_bank &&& 0x1F ≠ 0 := by
  unfold Cartridge.write_byte
  cases hty : c.header.cartridge_type
  · exact h
  · exact write_mbc1_preserves_low5 c a v h
  · exact write_mbc1_preserves_low5 c a v h
  · exact write_mbc1_preserves_low5 c a v h
  · exact h

theorem applyWrites_preserves_low5 (ws : List (Nat × Nat)) :
    ∀ c : Cartridge, c.rom_bank &&& 0x1F ≠ 0 →
      (applyWrites c ws).rom_bank &&& 0x1F ≠ 0 := by
  induction ws with
  | nil => intro c h; exact h
  | cons p ws ih =>
    intro c h
    exact ih _ (write_byte_preserves_low5 c p.1 p.2 h)

theorem load_from_rom_bank (rom : List Nat) (c : Cartridge)
    (h : Cartridge.load_from rom = Except.ok c) : c.rom_bank = 1 := by
  unfold Cartridge.load_from at h
  cases hh : CartridgeHeader.from_rom rom with
  | error e => rw [hh] at h; cases h
  | ok header =>
    rw [hh] at h
    cases h
    rfl

/-- C9: on any successfully loaded cartridge, no sequence of writes can
drive the ROM bank latch to a value with zero low-5 bits — in particular
never to 0x00, 0x20, 0x40 or 0x60. Loading latches bank 1; writes to
0x2000-0x3FFF force a zero low-5 field to 1; writes to 0x4000-0x5FFF in
banking mode 0 merge only the upper bits, preserving the low 5. -/
theorem rom_bank_low5_invariant :
    ∀ (rom : List Nat) (c : Cartridge),
      Cartridge.load_from rom = Except.ok c →
      ∀ ws : List (Nat × Nat),
        (applyWrites c ws).rom_bank &&& 0x1F ≠ 0 ∧
        (applyWrites c ws).rom_bank ≠ 0x00 ∧
        (applyWrites c ws).rom_bank ≠ 0x20 ∧
        (applyWrites c ws).rom_bank ≠ 0x40 ∧
        (applyWrites c ws).rom_bank ≠ 0x60 := by
  intro rom c hload ws
  have h0 : c.rom_bank &&& 0x1F ≠ 0 := by
    rw [load_from_rom_bank rom c hload]
    decide
  have hinv := applyWrites_preserves_low5 ws c h0
  refine ⟨hinv, ?_, ?_, ?_, ?_⟩ <;>
    · intro hEq
      rw [hEq] at hinv
      exact hinv (by decide)

/-- A minimal 336-byte MBC1 ROM image: header type byte 0x0147 = 0x01
(MBC1), ROM-size code 0, RAM-size code 0, everything else zero. -/
def mbc1Rom : List Nat :=
  List.replicate 0x0147 0 ++ [0x01, 0x00, 0x00] ++ List.replicate 6 0

/-- The cartridge state `Cartridge::load` builds from `mbc1Rom`. -/
def mbc1Cart : Cartridge :=
  { rom := mbc1Rom
    ram := []
    header :=
      { title := List.replicate 16 0
        cartridge_type := CartridgeType.Mbc1
        rom_size := 32768
        ram_size := 0 }
    rom_bank := 1, ram_bank := 0, ram_enabled := false, banking_mode := 0 }

/-- C9 witness: the invariant on the loaded `mbc1Rom` cartridge after
latching upper bank bits (write 1 to 0x4000) and then a zero low-5 field
(write 0 to 0x2000). -/
theorem rom_bank_low5_invariant_witness :
    (applyWrites mbc1Cart [(0x4000, 1), (0x2000, 0)]).rom_bank &&& 0x1F ≠ 0 ∧
    (applyWrites mbc1Cart [(0x4000, 1), (0x2000, 0)]).rom_bank ≠ 0x00 ∧
    (applyWrites mbc1Cart [(0x4000, 1), (0x2000, 0)]).rom_bank ≠ 0x20 ∧
    (applyWrites mbc1Cart [(0x4000, 1), (0x2000, 0)]).rom_bank ≠ 0x40 ∧
    (applyWrites mbc1Cart [(0x4000, 1), (0x2000, 0)]).rom_bank ≠ 0x60 :=
  rom_bank_low5_invariant mbc1Rom mbc1Cart rfl [(0x4000, 1), (0x2000, 0)]

/-- A minimal 336-byte ROM-only image accepted by the header parser. -/
def romOnlyRom : List Nat := List.replicate 0x0150 0

/-- The cartridge state `Cartridge::load` builds from `romOnlyRom`. -/
def smallCart : Cartridge :=
  { rom := romOnlyRom
    ram := []
    header :=
      { title := List.replicate 16 0
        cartridge_type := CartridgeType.RomOnly
        rom_size := 32768
        ram_size := 0 }
    rom_bank := 1, ram_bank := 0, ram_enabled := false, banking_mode := 0 }

/-- C10: `Cartridge::read_byte` is total on 0x4000-0x7FFF and
0xA000-0xBFFF (out-of-range bank offsets, disabled RAM and empty RAM all
yield 0xFF), but on 0x0000-0x3FFF it indexes the ROM vector unguarded, so
it is defined exactly when the address is below the ROM length; and
loading validates only that the file has at least 0x0150 bytes — the
336-byte `romOnlyRom` is accepted, and reading 0x0150 on it panics. -/
theorem cartridge_read_totality :
    (∀ (c : Cartridge) (addr : Nat), 0x4000 ≤ addr → addr ≤ 0x7FFF →
      (c.read_byte addr).isSome = true) ∧
    (∀ (c : Cartridge) (addr : Nat), 0xA000 ≤ addr → addr ≤ 0xBFFF →
      (c.read_byte addr).isSome = true) ∧
    (∀ (c : Cartridge) (addr : Nat), addr ≤ 0x3FFF →
      ((c.read_byte addr).isSome = true ↔ addr < c.rom.length)) ∧
    (Cartridge.load_from romOnlyRom = Except.ok smallCart ∧
     romOnlyRom.length = 0x0150 ∧
     smallCart.read_byte 0x0150 = none) := by
  refine ⟨?_, ?_, ?_, rfl, rfl, rfl⟩
  · intro c addr ha1 ha2
    unfold Cartridge.read_byte
    rw [if_neg (by omega), if_pos (by omega)]
    rfl
  · intro c addr ha1 ha2
    unfold Cartridge.read_byte
    rw [if_neg (by omega), if_neg (by omega), if_pos (by omega)]
    rfl
  · intro c addr ha
    unfold Cartridge.read_byte
    rw [if_pos (by omega)]
    simp [Option.isSome_iff_ne_none, Ne, List.get?_eq_none, Nat.not_le]

/-- C10 witness: the totality statements instantiated on `smallCart`:
the banked range reads succeed (0xFF out-of-range), the RAM range reads
succeed (0xFF, RAM absent), and the unguarded bank-0 read at 0x0000 is
defined because 0 is below the 336-byte ROM length. -/
theorem cartridge_read_totality_witness :
    (smallCart.read_byte 0x4000).isSome = true ∧
    (smallCart.read_byte 0xA000).isSome = true ∧
    ((smallCart.read_byte 0x0000).isSome = true ↔
      0x0000 < smallCart.rom.length) :=
  ⟨cartridge_read_totality.1 smallCart 0x4000 (by decide) (by decide),
   cartridge_read_totality.2.1 smallCart 0xA000 (by decide) (by decide),
   cartridge_read_totality.2.2.1 smallCart 0x0000 (by decide)⟩

end GB
